import Mathlib

/-!
# Property Bank P2P — verification of the rule/ledger engine

Shallow embedding of the repository's TypeScript sources
(`src/lib/rules.ts`, `src/lib/properties.ts`, `src/lib/qr.ts`,
`src/lib/types.ts`, and the bank-screen join handler) into Lean 4,
together with theorems settling the frozen specification claims.

Modelling conventions:
* JS `Record<string, T>` objects are association lists `List (String × T)`
  with lookup (`recGet`), update-or-append (`recSet`, mirroring the
  object-spread update `{ ...m, [k]: v }`), and key deletion (`recErase`).
* JS numbers that carry money are integer-valued in every code path of this
  program, so they are embedded as `Int` wrapped in `JSNum`, which also has
  the non-finite values `nan`, `posInf`, `negInf` that `clampMoney` guards
  against.  `Math.round` is the identity on integers.
* `Math.ceil(mv * 0.1)` is embedded as `ceilTenth mv = (mv + 9) / 10`:
  for every mortgage value occurring in `PROPERTY_DEFS` (small nonnegative
  integers) the double-precision product `mv * 0.1` rounds to a value whose
  ceiling is exactly `⌈mv / 10⌉`.
* `nanoid` ids and `Date.now()` timestamps are nondeterministic and are
  referenced by no claim; the `Tx` embedding omits those two fields.
* Where the TypeScript would throw a `TypeError` on a malformed state
  (property access on an `undefined` player record), the embedding returns
  the state unchanged; each such branch is marked with a comment.
-/

set_option autoImplicit false

namespace PropertyBank

/-! ## JS record (object) operations -/

/-- Lookup in a JS object: first entry with the given key. -/
def recGet {α : Type} : List (String × α) → String → Option α
  | [], _ => none
  | e :: es, k => if e.1 = k then some e.2 else recGet es k

/-- Object-spread update `{ ...m, [k]: v }`: replaces the entry in place
when the key exists, otherwise appends it. -/
def recSet {α : Type} : List (String × α) → String → α → List (String × α)
  | [], k, v => [(k, v)]
  | e :: es, k, v => if e.1 = k then (k, v) :: es else e :: recSet es k v

/-- JS `delete m[k]`. -/
def recErase {α : Type} : List (String × α) → String → List (String × α)
  | [], _ => []
  | e :: es, k => if e.1 = k then recErase es k else e :: recErase es k

/-! ## JS numbers carrying money -/

/-- A JS number as used for money in this program: an integer value or one
of the non-finite values that `clampMoney` maps to zero. -/
inductive JSNum : Type
  | finite (v : Int)
  | nan
  | posInf
  | negInf
deriving DecidableEq

/-- `clampMoney` on an already-integral value (the rounding step of the
source is the identity on integers). -/
def clampInt (v : Int) : Int :=
  max (-9999999) (min 9999999 v)

/-- `clampMoney(n)` from `rules.ts`: non-finite numbers become `0`, finite
ones are rounded (identity on integers) and clamped to ±9,999,999. -/
def clampMoney : JSNum → Int
  | .finite v => clampInt v
  | .nan => 0
  | .posInf => 0
  | .negInf => 0

/-! ## Data model (`types.ts`) -/

inductive PropertyKind : Type
  | street | rail | utility
deriving DecidableEq

inductive PropertyGroup : Type
  | brown | lightblue | pink | orange | red | yellow | green | blue
  | neutral_black | neutral_gray
deriving DecidableEq

structure PropertyDef : Type where
  id : String
  kind : PropertyKind
  group : PropertyGroup
  price : Int
  label : String
deriving DecidableEq

structure PropertyState : Type where
  id : String
  owner : Option String
  mortgaged : Bool
  buildings : Int
deriving DecidableEq

structure Player : Type where
  key : String
  name : String
  connId : Option String
  connected : Bool
  balance : Int
deriving DecidableEq

inductive TxType : Type
  | cash | property_transfer | mortgage | unmortgage | build | sell_build
  | bankruptcy_player | bankruptcy_bank | auction
deriving DecidableEq

/-- Audit entry; the random `id` and wall-clock `ts` of the source are
omitted (nondeterministic, referenced by no claim). -/
structure Tx : Type where
  type : TxType
  src : String
  dst : String
  note : String
  amount : Option JSNum := none
  propertyId : Option String := none
deriving DecidableEq

structure BankInventory : Type where
  housesAvailable : Int
  hotelsAvailable : Int
deriving DecidableEq

structure GameState : Type where
  gameId : String
  createdAt : Int
  startingCash : Int
  players : List (String × Player)
  props : List (String × PropertyState)
  tx : List Tx
  bank : BankInventory
  auctionQueue : List String
deriving DecidableEq

/-! ## Static property definitions (`properties.ts`) -/

/-- `String(n).padStart(2, "0")` for the ids `P01`…`P22`. -/
def pad2 (n : Nat) : String :=
  if n < 10 then "0" ++ toString n else toString n

/-- The `(group, price)` table of the 22 streets in `buildDefs`. -/
def streetTable : List (PropertyGroup × Int) :=
  [(.brown, 60), (.brown, 60),
   (.lightblue, 100), (.lightblue, 100), (.lightblue, 120),
   (.pink, 140), (.pink, 140), (.pink, 160),
   (.orange, 180), (.orange, 180), (.orange, 200),
   (.red, 220), (.red, 220), (.red, 240),
   (.yellow, 260), (.yellow, 260), (.yellow, 280),
   (.green, 300), (.green, 300), (.green, 320),
   (.blue, 350), (.blue, 400)]

def streetProps : List PropertyDef :=
  streetTable.enum.map fun e =>
    { id := "P" ++ pad2 (e.1 + 1), kind := .street, group := e.2.1,
      price := e.2.2, label := "Terreno " ++ toString (e.1 + 1) }

def railProps : List PropertyDef :=
  ([200, 200, 200, 200] : List Int).enum.map fun e =>
    { id := "T" ++ toString (e.1 + 1), kind := .rail, group := .neutral_black,
      price := e.2, label := "Transporte " ++ toString (e.1 + 1) }

def utilProps : List PropertyDef :=
  ([150, 150] : List Int).enum.map fun e =>
    { id := "S" ++ toString (e.1 + 1), kind := .utility, group := .neutral_gray,
      price := e.2, label := "Servicio " ++ toString (e.1 + 1) }

def PROPERTY_DEFS : List PropertyDef :=
  streetProps ++ railProps ++ utilProps

/-- `BUILD_COST_BY_GROUP` (a partial record: `none` for neutral groups). -/
def BUILD_COST_BY_GROUP : PropertyGroup → Option Int
  | .brown => some 50
  | .lightblue => some 50
  | .pink => some 100
  | .orange => some 100
  | .red => some 150
  | .yellow => some 150
  | .green => some 200
  | .blue => some 200
  | .neutral_black => none
  | .neutral_gray => none

/-! ## Rule engine helpers (`rules.ts`) -/

/-- `addTx`: prepend an audit entry (newest-first). -/
def addTx (s : GameState) (t : Tx) : GameState :=
  { s with tx := t :: s.tx }

/-- `playerDisplay`. -/
def playerDisplay (s : GameState) (key : String) : String :=
  if key = "BANK" then "BANCO"
  else match recGet s.players key with
    | some p => p.name
    | none => key

/-- `getDef`. -/
def getDef (propId : String) : Option PropertyDef :=
  PROPERTY_DEFS.find? fun p => p.id = propId

/-- `mortgageValue`: `Math.floor(def.price / 2)` (0 for unknown ids). -/
def mortgageValue (propId : String) : Int :=
  match getDef propId with
  | none => 0
  | some d => d.price / 2

/-- `Math.ceil(mv * 0.1)` for the mortgage values of this board (see the
header comment on floating point). -/
def ceilTenth (mv : Int) : Int :=
  (mv + 9) / 10

/-- `groupOf`. -/
def groupOf (propId : String) : Option PropertyGroup :=
  (getDef propId).map PropertyDef.group

/-- `groupProps`: ids of the street members of a group. -/
def groupProps (group : PropertyGroup) : List String :=
  (PROPERTY_DEFS.filter fun d => d.group = group ∧ d.kind = .street).map PropertyDef.id

/-- `state.props[id]?.buildings ?? 0`; the source reads `buildings` only
where the entry is guaranteed present. -/
def buildingsAt (s : GameState) (propId : String) : Int :=
  match recGet s.props propId with
  | some ps => ps.buildings
  | none => 0

/-- `state.players[k].balance`, defaulting to `0` where the source is
guarded by an existence check. -/
def balanceOf (s : GameState) (k : String) : Int :=
  match recGet s.players k with
  | some p => p.balance
  | none => 0

/-- `ownsFullGroup`. -/
def ownsFullGroup (s : GameState) (owner : String) (group : PropertyGroup) : Bool :=
  let ids := groupProps group
  !ids.isEmpty && ids.all fun id =>
    match recGet s.props id with
    | some ps => ps.owner = some owner
    | none => false

/-! ## Mortgage (`canMortgage` / `doMortgage`) -/

/-- `canMortgage`: `.ok ()` or `.error reason`. -/
def canMortgage (s : GameState) (propId : String) : Except String Unit :=
  match recGet s.props propId with
  | none => .error "Propiedad inexistente"
  | some ps =>
    match ps.owner with
    | none => .error "Sin dueño"
    | some _ =>
      if ps.mortgaged then .error "Ya está hipotecada"
      else
        match getDef propId with
        | none => .error "Definición inválida"
        | some d =>
          if d.kind = .street then
            let ids := groupProps d.group
            if ids.any (fun id => 0 < buildingsAt s id) then
              .error "Primero vendé todos los edificios del grupo (regla oficial)"
            else .ok ()
          else
            if 0 < ps.buildings then .error "No debería tener edificios"
            else .ok ()

/-- `doMortgage`. -/
def doMortgage (s : GameState) (propId : String) : GameState :=
  match canMortgage s propId with
  | .error reason =>
    addTx s { type := .mortgage, src := "BANK", dst := "BANK",
              note := "Hipoteca fallida: " ++ reason, propertyId := some propId }
  | .ok _ =>
    match recGet s.props propId with
    | none => s -- unreachable: `canMortgage` checked the entry exists
    | some ps =>
      match ps.owner with
      | none => s -- unreachable: `canMortgage` checked the owner
      | some owner =>
        let mv := mortgageValue propId
        match recGet s.players owner with
        | none => s -- JS throws a TypeError here (`players[owner]` undefined)
        | some pl =>
          let next : GameState :=
            { s with
              props := recSet s.props propId { ps with mortgaged := true },
              players := recSet s.players owner
                { pl with balance := clampInt (pl.balance + mv) } }
          addTx next { type := .mortgage, src := "BANK", dst := owner,
                       amount := some (.finite mv), propertyId := some propId,
                       note := "Hipoteca (" ++ playerDisplay next owner ++ " recibe "
                               ++ toString mv ++ ")" }

/-- `canUnmortgage`: `.ok cost` or `.error reason`. -/
def canUnmortgage (s : GameState) (propId : String) : Except String Int :=
  match recGet s.props propId with
  | none => .error "Propiedad inexistente"
  | some ps =>
    match ps.owner with
    | none => .error "Sin dueño"
    | some owner =>
      if !ps.mortgaged then .error "No está hipotecada"
      else
        let mv := mortgageValue propId
        let cost := mv + ceilTenth mv
        if balanceOf s owner < cost then .error "Saldo insuficiente para levantar hipoteca"
        else .ok cost

/-- `doUnmortgage`. -/
def doUnmortgage (s : GameState) (propId : String) : GameState :=
  match canUnmortgage s propId with
  | .error reason =>
    addTx s { type := .unmortgage, src := "BANK", dst := "BANK",
              note := "Levantar hipoteca falló: " ++ reason, propertyId := some propId }
  | .ok cost =>
    match recGet s.props propId with
    | none => s -- unreachable
    | some ps =>
      match ps.owner with
      | none => s -- unreachable
      | some owner =>
        match recGet s.players owner with
        | none => s -- JS throws a TypeError here
        | some pl =>
          let next : GameState :=
            { s with
              props := recSet s.props propId { ps with mortgaged := false },
              players := recSet s.players owner
                { pl with balance := clampInt (pl.balance - cost) } }
          addTx next { type := .unmortgage, src := owner, dst := "BANK",
                       amount := some (.finite cost), propertyId := some propId,
                       note := "Levantar hipoteca (+10% interés)" }

/-! ## Building (`canBuildHouse` / `doBuild` / `canSellBuilding` / `doSellBuilding`) -/

/-- `Math.min(...levels)`: `none` for the empty list (JS `Infinity`). -/
def jsMin : List Int → Option Int
  | [] => none
  | x :: xs => some (xs.foldl min x)

/-- `Math.max(...levels)`: `none` for the empty list (JS `-Infinity`). -/
def jsMax : List Int → Option Int
  | [] => none
  | x :: xs => some (xs.foldl max x)

/-- The cost/balance tail of `canBuildHouse`. -/
def canBuildHouseCost (s : GameState) (owner : String) (d : PropertyDef) :
    Except String Int :=
  let cost := (BUILD_COST_BY_GROUP d.group).getD 0
  if cost ≤ 0 then .error "Costo no definido"
  else if balanceOf s owner < cost then .error "Saldo insuficiente"
  else .ok cost

/-- `canBuildHouse`: `.ok cost` or `.error reason`. -/
def canBuildHouse (s : GameState) (propId : String) : Except String Int :=
  match getDef propId, recGet s.props propId with
  | some d, some ps =>
    if d.kind ≠ .street then .error "Solo terrenos admiten casas/hotel"
    else match ps.owner with
    | none => .error "Sin dueño"
    | some owner =>
      if ps.mortgaged then .error "No se construye en hipotecada"
      else if !ownsFullGroup s owner d.group then .error "Debe tener el grupo completo"
      else
        let ids := groupProps d.group
        if ids.any (fun id =>
            match recGet s.props id with
            | some q => q.mortgaged
            | none => false) then
          .error "No se construye si alguna del grupo está hipotecada"
        else if 5 ≤ ps.buildings then .error "Ya tiene hotel"
        else
          match jsMin (ids.map (buildingsAt s)) with
          | some m =>
            if ps.buildings ≠ m then .error "Construcción pareja: construí primero en las más bajas"
            else
              if ps.buildings = 4 then
                if s.bank.hotelsAvailable ≤ 0 then .error "Banco sin hoteles"
                else canBuildHouseCost s owner d
              else
                if s.bank.housesAvailable ≤ 0 then .error "Banco sin casas"
                else canBuildHouseCost s owner d
          | none => .error "Construcción pareja: construí primero en las más bajas"
            -- unreachable: a street group always has members; JS compares
            -- against `Infinity` here, which also refuses
  | _, _ => .error "Propiedad inválida"

/-- `doBuild`. -/
def doBuild (s : GameState) (propId : String) : GameState :=
  match canBuildHouse s propId with
  | .error reason =>
    addTx s { type := .build, src := "BANK", dst := "BANK",
              note := "Build falló: " ++ reason, propertyId := some propId }
  | .ok cost =>
    match recGet s.props propId with
    | none => s -- unreachable
    | some ps =>
      match ps.owner with
      | none => s -- unreachable
      | some owner =>
        match recGet s.players owner with
        | none => s -- unreachable: `canBuildHouse` read this player's balance
        | some pl =>
          let nextBuildings := ps.buildings + 1
          let bankNext : BankInventory :=
            if ps.buildings = 4 then
              { housesAvailable := s.bank.housesAvailable + 4,
                hotelsAvailable := s.bank.hotelsAvailable - 1 }
            else
              { s.bank with housesAvailable := s.bank.housesAvailable - 1 }
          let next : GameState :=
            { s with
              bank := bankNext,
              props := recSet s.props propId { ps with buildings := nextBuildings },
              players := recSet s.players owner
                { pl with balance := clampInt (pl.balance - cost) } }
          addTx next { type := .build, src := owner, dst := "BANK",
                       amount := some (.finite cost), propertyId := some propId,
                       note := if nextBuildings = 5 then "Compra de hotel" else "Compra de casa" }

/-- `canSellBuilding`: `.ok value` or `.error reason`. -/
def canSellBuilding (s : GameState) (propId : String) : Except String Int :=
  match getDef propId, recGet s.props propId with
  | some d, some ps =>
    if d.kind ≠ .street then .error "Solo terrenos"
    else match ps.owner with
    | none => .error "Sin dueño"
    | some _ =>
      if ps.buildings ≤ 0 then .error "No hay edificios para vender"
      else
        let ids := groupProps d.group
        match jsMax (ids.map (buildingsAt s)) with
        | some m =>
          if ps.buildings ≠ m then .error "Venta pareja: vendé primero de las más altas"
          else
            let cost := (BUILD_COST_BY_GROUP d.group).getD 0
            .ok (cost / 2)
        | none => .error "Venta pareja: vendé primero de las más altas"
          -- unreachable (see `canBuildHouse`)
  | _, _ => .error "Propiedad inválida"

/-- `doSellBuilding`. -/
def doSellBuilding (s : GameState) (propId : String) : GameState :=
  match canSellBuilding s propId with
  | .error reason =>
    addTx s { type := .sell_build, src := "BANK", dst := "BANK",
              note := "Venta falló: " ++ reason, propertyId := some propId }
  | .ok value =>
    match recGet s.props propId with
    | none => s -- unreachable
    | some ps =>
      match ps.owner with
      | none => s -- unreachable
      | some owner =>
        match recGet s.players owner with
        | none => s -- JS throws a TypeError here
        | some pl =>
          let bankNext : BankInventory :=
            if ps.buildings = 5 then
              { housesAvailable := max 0 (s.bank.housesAvailable - 4),
                hotelsAvailable := s.bank.hotelsAvailable + 1 }
            else
              { s.bank with housesAvailable := s.bank.housesAvailable + 1 }
          let next : GameState :=
            { s with
              bank := bankNext,
              props := recSet s.props propId { ps with buildings := ps.buildings - 1 },
              players := recSet s.players owner
                { pl with balance := clampInt (pl.balance + value) } }
          addTx next { type := .sell_build, src := "BANK", dst := owner,
                       amount := some (.finite value), propertyId := some propId,
                       note := "Venta de edificio (Banco paga la mitad)" }

/-! ## Cash and property transfer -/

/-- `transferCash`. -/
def transferCash (s : GameState) (src dst : String) (amount : JSNum) (note : String) :
    GameState :=
  let amt := clampMoney amount
  if amt = 0 then s
  else
    let players1 : Option (List (String × Player)) :=
      if src = "BANK" then some s.players
      else match recGet s.players src with
        | none => none
        | some p => some (recSet s.players src { p with balance := clampInt (p.balance - amt) })
    match players1 with
    | none => s
    | some ps1 =>
      let players2 : Option (List (String × Player)) :=
        if dst = "BANK" then some ps1
        else match recGet ps1 dst with
          | none => none
          | some p => some (recSet ps1 dst { p with balance := clampInt (p.balance + amt) })
      match players2 with
      | none => s
      | some ps2 =>
        addTx { s with players := ps2 }
          { type := .cash, src := src, dst := dst, amount := some (.finite amt), note := note }

/-- `transferProperty`. -/
def transferProperty (s : GameState) (propId : String) (toOwner : Option String)
    (note : String) : GameState :=
  match recGet s.props propId with
  | none => s
  | some ps =>
    let next : GameState := { s with props := recSet s.props propId { ps with owner := toOwner } }
    addTx next { type := .property_transfer, src := ps.owner.getD "BANK",
                 dst := toOwner.getD "BANK", propertyId := some propId, note := note }

/-! ## Bankruptcy -/

/-- One iteration of the building-liquidation loop of
`declareBankruptcyToPlayer`.  The source's `while (ps.buildings > 0)` loop
ends in an unconditional `break` ("evitar bucle largo en MVP"), so the body
runs exactly once when the captured snapshot has buildings. -/
def bankruptcyPlayerStep1 (debtor creditor : String) (s : GameState) (d : PropertyDef) :
    GameState :=
  match recGet s.props d.id with
  | none => s
  | some ps =>
    if ps.owner ≠ some debtor then s
    else if d.kind ≠ .street then s
    else if 0 < ps.buildings then
      let beforeBal := balanceOf s debtor
      let s' := doSellBuilding s d.id
      let afterBal := balanceOf s' debtor
      let delta := afterBal - beforeBal
      if 0 < delta then
        transferCash s' debtor creditor (.finite delta) "Liquidación por bancarrota (edificios)"
      else s'
    else s

/-- One iteration of the property-transfer loop of `declareBankruptcyToPlayer`. -/
def bankruptcyPlayerStep2 (debtor creditor : String) (s : GameState) (d : PropertyDef) :
    GameState :=
  match recGet s.props d.id with
  | none => s
  | some ps =>
    if ps.owner ≠ some debtor then s
    else
      let s' := transferProperty s d.id (some creditor) "Transferencia por bancarrota"
      if ps.mortgaged then
        transferCash s' creditor "BANK" (.finite (ceilTenth (mortgageValue d.id)))
          "Interés 10% por recibir propiedad hipotecada"
      else s'

/-- `declareBankruptcyToPlayer`. -/
def declareBankruptcyToPlayer (s : GameState) (debtor creditor : String) : GameState :=
  match recGet s.players debtor, recGet s.players creditor with
  | some _, some _ =>
    let s1 := PROPERTY_DEFS.foldl (bankruptcyPlayerStep1 debtor creditor) s
    let s2 := PROPERTY_DEFS.foldl (bankruptcyPlayerStep2 debtor creditor) s1
    let cashLeft := balanceOf s2 debtor
    let s3 :=
      if cashLeft ≠ 0 then
        transferCash s2 debtor creditor (.finite cashLeft) "Transferencia de efectivo por bancarrota"
      else s2
    let s4 : GameState := { s3 with players := recErase s3.players debtor }
    addTx s4 { type := .bankruptcy_player, src := debtor, dst := creditor,
               note := "Bancarrota: " ++ playerDisplay s debtor ++ " → "
                       ++ playerDisplay s creditor }
  | _, _ => s

/-- One iteration of the building-zeroing loop of `declareBankruptcyToBank`
(operates on the props record only; no payout). -/
def bankruptcyBankStep1 (debtor : String) (props : List (String × PropertyState))
    (d : PropertyDef) : List (String × PropertyState) :=
  match recGet props d.id with
  | none => props
  | some ps =>
    if ps.owner = some debtor ∧ d.kind = .street ∧ 0 < ps.buildings then
      recSet props d.id { ps with buildings := 0 }
    else props

/-- One iteration of the hand-over loop of `declareBankruptcyToBank`: pushes
the id onto the pending auction queue and clears owner/mortgage. -/
def bankruptcyBankStep2 (debtor : String) (acc : GameState × List String)
    (d : PropertyDef) : GameState × List String :=
  match recGet acc.1.props d.id with
  | none => acc
  | some ps =>
    if ps.owner = some debtor then
      ({ acc.1 with props := recSet acc.1.props d.id { ps with owner := none, mortgaged := false } },
       acc.2 ++ [d.id])
    else acc

/-- `declareBankruptcyToBank`. -/
def declareBankruptcyToBank (s : GameState) (debtor : String) : GameState :=
  match recGet s.players debtor with
  | none => s
  | some _ =>
    let s1 : GameState :=
      { s with props := PROPERTY_DEFS.foldl (bankruptcyBankStep1 debtor) s.props }
    let acc := PROPERTY_DEFS.foldl (bankruptcyBankStep2 debtor) (s1, s.auctionQueue)
    let s2 : GameState := { acc.1 with auctionQueue := acc.2 }
    let s3 : GameState := { s2 with players := recErase s2.players debtor }
    addTx s3 { type := .bankruptcy_bank, src := debtor, dst := "BANK",
               note := "Bancarrota al Banco: " ++ playerDisplay s debtor
                       ++ ". Propiedades a subasta: " ++ toString acc.2.length }

/-! ## Auction -/

/-- `auctionSellTo`. -/
def auctionSellTo (s : GameState) (propId : String) (winner : String) (price : JSNum) :
    GameState :=
  match recGet s.props propId with
  | none => s
  | some _ =>
    match recGet s.players winner with
    | none => s
    | some _ =>
      let s1 := transferCash s winner "BANK" price "Subasta (pago al Banco)"
      let s2 : GameState :=
        { s1 with
          props :=
            match recGet s1.props propId with
            | some ps => recSet s1.props propId
                { ps with owner := some winner, mortgaged := false, buildings := 0 }
            | none => s1.props -- unreachable: `transferCash` leaves props untouched
          auctionQueue := s1.auctionQueue.filter (fun id => id ≠ propId) }
      addTx s2 { type := .auction, src := "BANK", dst := winner,
                 amount := some price, propertyId := some propId,
                 note := "Subasta (asignación)" }

/-! ## Name normalization and the join (HELLO) handler -/

/-- `name.replace(/\s+/g, " ")` on the character list: every maximal run of
whitespace becomes a single space (a whitespace character followed by more
whitespace is dropped; the last of a run becomes `' '`). -/
def collapseWs : List Char → List Char
  | [] => []
  | [c] => if c.isWhitespace then [' '] else [c]
  | c :: d :: cs =>
    if c.isWhitespace then
      if d.isWhitespace then collapseWs (d :: cs)
      else ' ' :: collapseWs (d :: cs)
    else c :: collapseWs (d :: cs)

/-- Remove the maximal trailing run of whitespace. -/
def dropTrailingWs : List Char → List Char
  | [] => []
  | c :: cs =>
    let rest := dropTrailingWs cs
    if rest = [] ∧ c.isWhitespace then [] else c :: rest

/-- JS `String.prototype.trim`: strip leading and trailing whitespace. -/
def jsTrim (s : String) : String :=
  ⟨dropTrailingWs (s.data.dropWhile Char.isWhitespace)⟩

/-- `s.toLowerCase()` (ASCII case folding; the claims only compare keys). -/
def toLowerStr (s : String) : String :=
  ⟨s.data.map Char.toLower⟩

/-- `normalizeName` from `rules.ts`: trim, collapse whitespace, lower-case. -/
def normalizeName (name : String) : String :=
  toLowerStr ⟨collapseWs (jsTrim name).data⟩

inductive JoinKind : Type
  | new | rejoin | duplicate
deriving DecidableEq

/-- An entry of the bank screen's `pendingJoin` list. -/
structure PendingJoin : Type where
  connId : String
  name : String
  kind : JoinKind
deriving DecidableEq

/-- Result of the bank screen's HELLO handler: optional immediate REJECT
reason, the (possibly updated) game state, and the pending-join list. -/
structure HelloResult : Type where
  reject : Option String
  state : GameState
  pending : List PendingJoin
deriving DecidableEq

/-- The `peer.on("data")` HELLO branch of the bank screen (`part_000`):
trims the name, rejects an empty name immediately, otherwise classifies the
request against the player map by normalized key and queues it for explicit
bank approval; the game state is returned unchanged in every branch. -/
def handleHello (cur : GameState) (pending : List PendingJoin)
    (connId rawName : String) : HelloResult :=
  let name := jsTrim rawName
  let key := normalizeName name
  if name = "" then
    { reject := some "Nombre vacío", state := cur, pending := pending }
  else
    match recGet cur.players key with
    | none =>
      { reject := none, state := cur,
        pending := pending ++ [{ connId := connId, name := name, kind := .new }] }
    | some p =>
      if p.connected then
        { reject := none, state := cur,
          pending := pending ++ [{ connId := connId, name := name, kind := .duplicate }] }
      else
        { reject := none, state := cur,
          pending := pending ++ [{ connId := connId, name := name, kind := .rejoin }] }

/-! ## QR handshake codec (`qr.ts`)

`lz-string`'s `compressToEncodedURIComponent` / `decompressFromEncodedURIComponent`
are an external library; they are passed as function parameters
(`decompress` returns `none` for the library's `null` result).  The final
`JSON.parse` of `decodeQR` is outside the claims and is not modelled: the
embedded `decodeQR` returns the decompressed JSON text. -/

def QR_PREFIX : String := "PB1:"

/-- JS `text.startsWith(pre)`, at the character level. -/
def jsStartsWith (text pre : String) : Bool :=
  pre.data.isPrefixOf text.data

/-- JS `text.slice(n)`, at the character level (the prefix is ASCII, so
code units and characters coincide here). -/
def jsSlice (text : String) (n : Nat) : String :=
  ⟨text.data.drop n⟩

/-- `encodeQR` up to the external compressor. -/
def encodeQR (compress : String → String) (json : String) : String :=
  QR_PREFIX ++ compress json

/-- `decodeQR` up to the external decompressor: strips the prefix when
present, otherwise uses the whole text as the body; throws (`.error`) only
when decompression yields `null` or the empty string. -/
def decodeQR (decompress : String → Option String) (text : String) :
    Except String String :=
  let raw := if jsStartsWith text QR_PREFIX then jsSlice text QR_PREFIX.length else text
  match decompress raw with
  | none => .error "QR inválido / no compatible"
  | some json =>
    if json = "" then .error "QR inválido / no compatible"
    else .ok json

/-! ## Concrete fixture states (used by witnesses and counterexamples) -/

/-- A connected player fixture. -/
def samplePlayer (k : String) (b : Int) : Player :=
  { key := k, name := k, connId := none, connected := true, balance := b }

/-- A property-state fixture. -/
def sampleProp (id : String) (o : Option String) (m : Bool) (b : Int) : PropertyState :=
  { id := id, owner := o, mortgaged := m, buildings := b }

/-- An empty game. -/
def state0 : GameState :=
  { gameId := "G", createdAt := 0, startingCash := 1500, players := [], props := [],
    tx := [], bank := { housesAvailable := 32, hotelsAvailable := 12 }, auctionQueue := [] }

/-- Two players, no properties. -/
def stateAB : GameState :=
  { state0 with players := [("alice", samplePlayer "alice" 1500), ("bob", samplePlayer "bob" 1500)] }

/-- alice owns the full brown group, unimproved; building is legal. -/
def stateBuild : GameState :=
  { state0 with
    players := [("alice", samplePlayer "alice" 1000)],
    props := [("P01", sampleProp "P01" (some "alice") false 0),
              ("P02", sampleProp "P02" (some "alice") false 0)] }

/-- alice owns the brown group with one house on P01; selling it is legal. -/
def stateSell : GameState :=
  { state0 with
    players := [("alice", samplePlayer "alice" 1000)],
    props := [("P01", sampleProp "P01" (some "alice") false 1),
              ("P02", sampleProp "P02" (some "alice") false 0)] }

/-- alice owns P01 free of mortgage with a modest balance. -/
def stateMortgage : GameState :=
  { state0 with
    players := [("alice", samplePlayer "alice" 100)],
    props := [("P01", sampleProp "P01" (some "alice") false 0)] }

/-- alice owns P01 with her balance at the money clamp's upper bound. -/
def stateClamp : GameState :=
  { state0 with
    players := [("alice", samplePlayer "alice" 9999999)],
    props := [("P01", sampleProp "P01" (some "alice") false 0)] }

/-- Debtor alice holds two houses on each brown street; creditor bob. -/
def stateDrain : GameState :=
  { state0 with
    players := [("alice", samplePlayer "alice" 0), ("bob", samplePlayer "bob" 0)],
    props := [("P01", sampleProp "P01" (some "alice") false 2),
              ("P02", sampleProp "P02" (some "alice") false 2)] }

/-- P01 is bank-owned and queued for auction; bob can buy it. -/
def stateAuction : GameState :=
  { state0 with
    players := [("bob", samplePlayer "bob" 1000)],
    props := [("P01", sampleProp "P01" none false 0)],
    auctionQueue := ["P01"] }

/-- Debtor dora owns a rail carrying a (malformed) building and the rail is
already queued for auction. -/
def stateRail : GameState :=
  { state0 with
    players := [("dora", samplePlayer "dora" 500)],
    props := [("T1", sampleProp "T1" (some "dora") true 1)],
    auctionQueue := ["T1"] }

/-- Debtor dora owns the mortgaged street P06 with two houses. -/
def stateBankBk : GameState :=
  { state0 with
    players := [("dora", samplePlayer "dora" 500)],
    props := [("P06", sampleProp "P06" (some "dora") false 2)] }

/-- One disconnected player, for the rejoin classification. -/
def stateOffline : GameState :=
  { state0 with
    players := [("alice", { samplePlayer "alice" 1500 with connected := false })] }

/-- The static definition of street `P01` (brown, price 60). -/
def defP01 : PropertyDef :=
  { id := "P01", kind := .street, group := .brown, price := 60, label := "Terreno 1" }

/-! ## Record lemmas -/

theorem recGet_recSet_self {α : Type} (m : List (String × α)) (k : String) (v : α) :
    recGet (recSet m k v) k = some v := by
  induction m with
  | nil => simp [recGet, recSet]
  | cons e es ih =>
    by_cases h : e.1 = k
    · simp [recSet, h, recGet]
    · simp [recSet, h, recGet, ih]

theorem recGet_recSet_ne {α : Type} (m : List (String × α)) (k k' : String) (v : α)
    (h : k' ≠ k) : recGet (recSet m k v) k' = recGet m k' := by
  induction m with
  | nil => simp [recGet, recSet, Ne.symm h]
  | cons e es ih =>
    by_cases he : e.1 = k
    · subst he
      simp [recSet, recGet, Ne.symm h]
    · simp only [recSet, if_neg he]
      by_cases he' : e.1 = k'
      · simp [recGet, he']
      · simp [recGet, he', ih]

theorem recGet_recErase_self {α : Type} (m : List (String × α)) (k : String) :
    recGet (recErase m k) k = none := by
  induction m with
  | nil => simp [recGet, recErase]
  | cons e es ih =>
    by_cases h : e.1 = k
    · simp [recErase, h, ih]
    · simp [recErase, h, recGet, ih]

theorem recGet_recErase_ne {α : Type} (m : List (String × α)) (k k' : String)
    (h : k' ≠ k) : recGet (recErase m k) k' = recGet m k' := by
  induction m with
  | nil => simp [recErase]
  | cons e es ih =>
    by_cases he : e.1 = k
    · subst he
      simp [recErase, recGet, Ne.symm h, ih]
    · simp only [recErase, if_neg he]
      by_cases he' : e.1 = k'
      · simp [recGet, he']
      · simp [recGet, he', ih]

/-! ## Frame lemmas -/

theorem addTx_frame (s : GameState) (t : Tx) :
    (addTx s t).players = s.players ∧ (addTx s t).props = s.props
  ∧ (addTx s t).bank = s.bank ∧ (addTx s t).auctionQueue = s.auctionQueue :=
  ⟨rfl, rfl, rfl, rfl⟩

theorem transferCash_frame (s : GameState) (src dst : String) (amount : JSNum)
    (note : String) :
    (transferCash s src dst amount note).props = s.props
  ∧ (transferCash s src dst amount note).bank = s.bank
  ∧ (transferCash s src dst amount note).auctionQueue = s.auctionQueue := by
  unfold transferCash
  by_cases hz : clampMoney amount = 0
  · simp [hz]
  · simp only [if_neg hz]
    repeat' split
    all_goals simp [addTx]

theorem transferProperty_frame (s : GameState) (propId : String) (toOwner : Option String)
    (note : String) :
    (transferProperty s propId toOwner note).players = s.players
  ∧ (transferProperty s propId toOwner note).bank = s.bank
  ∧ (transferProperty s propId toOwner note).auctionQueue = s.auctionQueue := by
  unfold transferProperty
  repeat' split
  all_goals simp [addTx]

/-! ## Claim C10 -/

/-- C10: `clampMoney` maps every non-finite input (`NaN`, `+Infinity`,
`-Infinity`) to `0`; consequently `transferCash` called with a non-finite
amount is a pure no-op: it returns the input state unchanged (in particular
it appends no audit entry). -/
theorem c10_nonfinite_cash_noop (s : GameState) (src dst note : String) (n : JSNum)
    (h : n = .nan ∨ n = .posInf ∨ n = .negInf) :
    clampMoney n = 0 ∧ transferCash s src dst n note = s := by
  have h0 : clampMoney n = 0 := by rcases h with h | h | h <;> simp [h, clampMoney]
  refine ⟨h0, ?_⟩
  unfold transferCash
  simp [h0]

/-- Witness for C10 at `NaN` on a concrete two-player state. -/
theorem c10_nonfinite_cash_noop_witness :
    (JSNum.nan = JSNum.nan ∨ JSNum.nan = JSNum.posInf ∨ JSNum.nan = JSNum.negInf)
  ∧ (clampMoney .nan = 0 ∧ transferCash stateAB "alice" "bob" .nan "pago" = stateAB) :=
  ⟨Or.inl rfl, c10_nonfinite_cash_noop stateAB "alice" "bob" "pago" .nan (Or.inl rfl)⟩

/-! ## Claim C9 -/

/-- C9 counterexample: the input `"hola"` carries no version tag, yet
`decodeQR` does not reject it — it feeds the whole text to the
decompressor and succeeds whenever decompression does. -/
theorem c9_missing_tag_not_rejected :
    jsStartsWith "hola" QR_PREFIX = false
  ∧ decodeQR (fun s => some s) "hola" = .ok "hola" := by
  exact ⟨by decide, rfl⟩

/-- C9 amended: when the version tag is missing, `decodeQR` does not
reject the input up front; it attempts to decompress the entire text as the
body and fails only if decompression yields `null` or the empty string. -/
theorem c9_decode_without_prefix (dec : String → Option String) (text : String)
    (h : jsStartsWith text QR_PREFIX = false) :
    decodeQR dec text =
      match dec text with
      | none => Except.error "QR inválido / no compatible"
      | some json =>
        if json = "" then Except.error "QR inválido / no compatible" else Except.ok json := by
  unfold decodeQR
  simp [h]

/-- Witness for the amended C9 on the identity decompressor. -/
theorem c9_decode_without_prefix_witness :
    jsStartsWith "hola" QR_PREFIX = false
  ∧ decodeQR (fun s => some s) "hola" =
      (match (fun (s : String) => some s) "hola" with
       | none => Except.error "QR inválido / no compatible"
       | some json =>
         if json = "" then Except.error "QR inválido / no compatible" else Except.ok json) := by
  refine ⟨by decide, c9_decode_without_prefix (fun s => some s) "hola" (by decide)⟩

/-! ## Claim C8: name normalization lemmas and the join handler -/

theorem string_eq_empty_iff (s : String) : s = "" ↔ s.data = [] := by
  cases s with
  | mk d =>
    constructor
    · intro h
      exact congrArg String.data h
    · intro h
      subst h
      rfl

theorem collapseWs_eq_nil_iff (l : List Char) : collapseWs l = [] ↔ l = [] := by
  induction l with
  | nil => simp [collapseWs]
  | cons c cs ih =>
    cases cs with
    | nil =>
      rw [collapseWs]
      split <;> simp
    | cons d cs' =>
      rw [collapseWs]
      by_cases hc : c.isWhitespace
      · by_cases hd : d.isWhitespace
        · simp only [if_pos hc, if_pos hd]
          rw [ih]
          simp
        · simp [hc, hd]
      · simp [hc]

theorem dropTrailingWs_idem (l : List Char) :
    dropTrailingWs (dropTrailingWs l) = dropTrailingWs l := by
  induction l with
  | nil => rfl
  | cons c cs ih =>
    rw [dropTrailingWs]
    by_cases h : dropTrailingWs cs = [] ∧ c.isWhitespace
    · simp only [if_pos h]
      rfl
    · simp only [if_neg h]
      rw [dropTrailingWs, ih]
      simp only [if_neg h]

theorem head?_dropTrailingWs (l : List Char) :
    dropTrailingWs l = [] ∨ (dropTrailingWs l).head? = l.head? := by
  cases l with
  | nil => exact Or.inl rfl
  | cons c cs =>
    by_cases h : dropTrailingWs cs = [] ∧ c.isWhitespace
    · exact Or.inl (by rw [dropTrailingWs]; simp [h])
    · exact Or.inr (by rw [dropTrailingWs]; simp [h])

theorem dropWhile_ws_jsTrim (s : String) :
    (jsTrim s).data.dropWhile Char.isWhitespace = (jsTrim s).data := by
  show (dropTrailingWs (s.data.dropWhile Char.isWhitespace)).dropWhile Char.isWhitespace
      = dropTrailingWs (s.data.dropWhile Char.isWhitespace)
  rcases head?_dropTrailingWs (s.data.dropWhile Char.isWhitespace) with h | h
  · rw [h]
    rfl
  · cases hd : dropTrailingWs (s.data.dropWhile Char.isWhitespace) with
    | nil => rfl
    | cons x xs =>
      have hx : x ∈ (s.data.dropWhile Char.isWhitespace).head? := by
        rw [← h, hd]
        rfl
      have hnot := List.head?_dropWhile_not Char.isWhitespace s.data
      rw [Option.mem_def] at hx
      rw [hx] at hnot
      exact List.dropWhile_cons_of_neg (by simp [hnot])

theorem jsTrim_idem (s : String) : jsTrim (jsTrim s) = jsTrim s := by
  show (⟨dropTrailingWs ((jsTrim s).data.dropWhile Char.isWhitespace)⟩ : String) = jsTrim s
  rw [dropWhile_ws_jsTrim]
  show (⟨dropTrailingWs (dropTrailingWs (s.data.dropWhile Char.isWhitespace))⟩ : String) = _
  rw [dropTrailingWs_idem]
  rfl

theorem normalizeName_jsTrim (s : String) :
    normalizeName (jsTrim s) = normalizeName s := by
  unfold normalizeName
  rw [jsTrim_idem]

theorem normalizeName_eq_empty_iff (s : String) :
    normalizeName s = "" ↔ jsTrim s = "" := by
  unfold normalizeName toLowerStr
  rw [string_eq_empty_iff, string_eq_empty_iff]
  show (collapseWs (jsTrim s).data).map Char.toLower = [] ↔ _
  rw [List.map_eq_nil_iff, collapseWs_eq_nil_iff]

/-- The claim's classification rule: `new` when the normalized key is
absent, `duplicate` when present and connected, `rejoin` when present but
disconnected. -/
def classifyJoin (cur : GameState) (key : String) : JoinKind :=
  match recGet cur.players key with
  | none => .new
  | some p => if p.connected then .duplicate else .rejoin

/-- C8: an inbound join request whose normalized name is empty is rejected
immediately with no state change; otherwise it is classified against the
player map by normalized key — `new` when the key is absent, `rejoin` when
present but disconnected, `duplicate` when present and connected — and in
all three cases the game state is returned unchanged (no mutation before an
explicit bank approval). -/
theorem c8_hello_classification (cur : GameState) (pending : List PendingJoin)
    (connId rawName : String) :
    (normalizeName rawName = "" →
       handleHello cur pending connId rawName =
         { reject := some "Nombre vacío", state := cur, pending := pending })
  ∧ (normalizeName rawName ≠ "" →
       handleHello cur pending connId rawName =
         { reject := none, state := cur,
           pending := pending ++ [{ connId := connId, name := jsTrim rawName,
                                     kind := classifyJoin cur (normalizeName rawName) }] }) := by
  have hkey := normalizeName_jsTrim rawName
  constructor
  · intro h
    have ht : jsTrim rawName = "" := (normalizeName_eq_empty_iff rawName).mp h
    unfold handleHello
    simp [ht]
  · intro h
    have ht : ¬jsTrim rawName = "" := fun hc =>
      h ((normalizeName_eq_empty_iff rawName).mpr hc)
    unfold handleHello classifyJoin
    simp only [if_neg ht, hkey]
    cases hget : recGet cur.players (normalizeName rawName) with
    | none => simp
    | some p =>
      by_cases hc : p.connected
      · simp [hc]
      · simp [hc]

/-- Witness for C8: the empty-name rejection on `"   "` and the `new`
classification of `"Tute"` against a map without that key. -/
theorem c8_hello_classification_witness :
    (normalizeName "   " = "" ∧
      handleHello stateAB [] "c1" "   " =
        { reject := some "Nombre vacío", state := stateAB, pending := [] })
  ∧ (normalizeName "Tute" ≠ "" ∧
      handleHello stateAB [] "c1" "Tute" =
        { reject := none, state := stateAB,
          pending := [{ connId := "c1", name := jsTrim "Tute",
                        kind := classifyJoin stateAB (normalizeName "Tute") }] }) := by
  constructor
  · exact ⟨by decide, by
      have := (c8_hello_classification stateAB [] "c1" "   ").1 (by decide)
      simpa using this⟩
  · exact ⟨by decide, by
      have := (c8_hello_classification stateAB [] "c1" "Tute").2 (by decide)
      simpa using this⟩

/-! ## Claim C3 -/

/-- C3 counterexample: `transferCash` from an unregistered player key
returns the state unchanged and appends NO audit entry, refuting
"on every call, success or failure, it appends exactly one audit entry ...
with one failure-tagged entry". -/
theorem c3_invalid_transfer_appends_nothing :
    transferCash state0 "alice" "BANK" (.finite 100) "pago" = state0 := by
  decide

/-- C3 amended: the four property operations (mortgage, unmortgage, build,
sellBuilding) are total and, on an invalid request, return the economic
state unchanged plus exactly one failure-tagged audit entry with a
human-readable reason; `transferCash`, `transferProperty`, the two
bankruptcy operations and `auctionSellTo` are also total but return the
state unchanged with NO audit entry on an invalid request (zero/non-finite
amount, unknown player, unknown property). -/
theorem c3_totality_and_audit (s : GameState) (pid src dst note : String)
    (toOwner : Option String) (amount : JSNum) :
    (∀ r, canMortgage s pid = .error r →
       doMortgage s pid = addTx s { type := .mortgage, src := "BANK", dst := "BANK",
                                    note := "Hipoteca fallida: " ++ r,
                                    propertyId := some pid })
  ∧ (∀ r, canUnmortgage s pid = .error r →
       doUnmortgage s pid = addTx s { type := .unmortgage, src := "BANK", dst := "BANK",
                                      note := "Levantar hipoteca falló: " ++ r,
                                      propertyId := some pid })
  ∧ (∀ r, canBuildHouse s pid = .error r →
       doBuild s pid = addTx s { type := .build, src := "BANK", dst := "BANK",
                                 note := "Build falló: " ++ r,
                                 propertyId := some pid })
  ∧ (∀ r, canSellBuilding s pid = .error r →
       doSellBuilding s pid = addTx s { type := .sell_build, src := "BANK", dst := "BANK",
                                        note := "Venta falló: " ++ r,
                                        propertyId := some pid })
  ∧ (clampMoney amount = 0 → transferCash s src dst amount note = s)
  ∧ (src ≠ "BANK" → recGet s.players src = none → transferCash s src dst amount note = s)
  ∧ (recGet s.props pid = none → transferProperty s pid toOwner note = s)
  ∧ (recGet s.players src = none → declareBankruptcyToPlayer s src dst = s)
  ∧ (recGet s.players src = none → declareBankruptcyToBank s src = s)
  ∧ (recGet s.props pid = none → auctionSellTo s pid src amount = s) := by
  refine ⟨?_, ?_, ?_, ?_, ?_, ?_, ?_, ?_, ?_, ?_⟩
  · intro r h
    unfold doMortgage
    rw [h]
  · intro r h
    unfold doUnmortgage
    rw [h]
  · intro r h
    unfold doBuild
    rw [h]
  · intro r h
    unfold doSellBuilding
    rw [h]
  · intro h
    unfold transferCash
    simp [h]
  · intro hsrc hnone
    unfold transferCash
    by_cases hz : clampMoney amount = 0
    · simp [hz]
    · simp [hz, hsrc, hnone]
  · intro h
    unfold transferProperty
    rw [h]
  · intro h
    unfold declareBankruptcyToPlayer
    rw [h]
  · intro h
    unfold declareBankruptcyToBank
    rw [h]
  · intro h
    unfold auctionSellTo
    rw [h]

/-- Witness for the amended C3 on concrete invalid requests against the
empty game. -/
theorem c3_totality_and_audit_witness :
    doMortgage state0 "P01" =
      addTx state0 { type := .mortgage, src := "BANK", dst := "BANK",
                     note := "Hipoteca fallida: " ++ "Propiedad inexistente",
                     propertyId := some "P01" }
  ∧ doUnmortgage state0 "P01" =
      addTx state0 { type := .unmortgage, src := "BANK", dst := "BANK",
                     note := "Levantar hipoteca falló: " ++ "Propiedad inexistente",
                     propertyId := some "P01" }
  ∧ doBuild state0 "P01" =
      addTx state0 { type := .build, src := "BANK", dst := "BANK",
                     note := "Build falló: " ++ "Propiedad inválida",
                     propertyId := some "P01" }
  ∧ doSellBuilding state0 "P01" =
      addTx state0 { type := .sell_build, src := "BANK", dst := "BANK",
                     note := "Venta falló: " ++ "Propiedad inválida",
                     propertyId := some "P01" }
  ∧ transferCash state0 "alice" "BANK" (.finite 0) "pago" = state0
  ∧ transferCash state0 "alice" "BANK" (.finite 0) "pago" = state0
  ∧ transferProperty state0 "P01" none "pase" = state0
  ∧ declareBankruptcyToPlayer state0 "alice" "BANK" = state0
  ∧ declareBankruptcyToBank state0 "alice" = state0
  ∧ auctionSellTo state0 "P01" "alice" (.finite 0) = state0 := by
  have h := c3_totality_and_audit state0 "P01" "alice" "BANK" "pago" none (.finite 0)
  exact ⟨h.1 _ rfl, h.2.1 _ rfl, h.2.2.1 _ rfl, h.2.2.2.1 _ rfl,
         h.2.2.2.2.1 rfl, h.2.2.2.2.2.1 (by decide) rfl, h.2.2.2.2.2.2.1 rfl,
         h.2.2.2.2.2.2.2.1 rfl, h.2.2.2.2.2.2.2.2.1 rfl, h.2.2.2.2.2.2.2.2.2 rfl⟩

/-! ## Claim C2 -/

/-- Effect of `transferCash` into the bank from a registered source. -/
theorem transferCash_to_bank (s : GameState) (src note : String) (amount : JSNum)
    (p : Player) (hsrc : src ≠ "BANK") (hp : recGet s.players src = some p)
    (hamt : clampMoney amount ≠ 0) :
    transferCash s src "BANK" amount note =
      addTx
        { s with players := recSet s.players src { p with balance := clampInt (p.balance - clampMoney amount) } }
        { type := .cash, src := src, dst := "BANK",
          amount := some (.finite (clampMoney amount)), note := note } := by
  unfold transferCash
  simp [hamt, hsrc, hp]

/-- Effect of one `auctionSellTo` call on the sold property, the winner's
balance and the auction queue. -/
theorem auctionSellTo_effect (s : GameState) (pid w : String) (price : JSNum)
    (ps : PropertyState) (p : Player)
    (hps : recGet s.props pid = some ps) (hp : recGet s.players w = some p)
    (hw : w ≠ "BANK") (hamt : clampMoney price ≠ 0) :
    recGet (auctionSellTo s pid w price).props pid =
      some { id := ps.id, owner := some w, mortgaged := false, buildings := 0 }
  ∧ recGet (auctionSellTo s pid w price).players w =
      some { p with balance := clampInt (p.balance - clampMoney price) }
  ∧ (auctionSellTo s pid w price).auctionQueue =
      s.auctionQueue.filter (fun id => id ≠ pid) := by
  unfold auctionSellTo
  rw [hps, hp]
  simp only []
  rw [transferCash_to_bank s w "Subasta (pago al Banco)" price p hw hp hamt]
  simp [addTx, hps, recGet_recSet_self]

/-- C2 amended: the queue-removal step of `auctionSellTo` is idempotent,
but there is no guard against double application of the payment: a second
call with the same property id charges the winner the (clamped) price
again. -/
theorem c2_no_double_charge_guard (s : GameState) (pid w : String) (price : JSNum)
    (ps : PropertyState) (p : Player)
    (hps : recGet s.props pid = some ps) (hp : recGet s.players w = some p)
    (hw : w ≠ "BANK") (hamt : clampMoney price ≠ 0) :
    balanceOf (auctionSellTo (auctionSellTo s pid w price) pid w price) w =
      clampInt (balanceOf (auctionSellTo s pid w price) w - clampMoney price)
  ∧ (auctionSellTo (auctionSellTo s pid w price) pid w price).auctionQueue =
      (auctionSellTo s pid w price).auctionQueue := by
  obtain ⟨h1p, h1w, h1q⟩ := auctionSellTo_effect s pid w price ps p hps hp hw hamt
  obtain ⟨h2p, h2w, h2q⟩ :=
    auctionSellTo_effect (auctionSellTo s pid w price) pid w price _ _ h1p h1w hw hamt
  constructor
  · unfold balanceOf
    rw [h2w, h1w]
  · rw [h2q, h1q]
    apply List.filter_eq_self.mpr
    intro a ha
    exact (List.mem_filter.mp ha).2

/-- C2 counterexample: on a concrete state, `auctionSellTo` twice with the
same property id charges the winner twice (1000 → 900 → 800), refuting
"the second call leaves the winner's balance unchanged". -/
theorem c2_double_charge_counterexample :
    balanceOf (auctionSellTo stateAuction "P01" "bob" (.finite 100)) "bob" = 900
  ∧ balanceOf (auctionSellTo (auctionSellTo stateAuction "P01" "bob" (.finite 100))
      "P01" "bob" (.finite 100)) "bob" = 800 := by
  decide

/-- Witness for the amended C2 on the concrete auction state. -/
theorem c2_no_double_charge_guard_witness :
    balanceOf (auctionSellTo (auctionSellTo stateAuction "P01" "bob" (.finite 100))
        "P01" "bob" (.finite 100)) "bob" =
      clampInt (balanceOf (auctionSellTo stateAuction "P01" "bob" (.finite 100)) "bob"
        - clampMoney (.finite 100))
  ∧ (auctionSellTo (auctionSellTo stateAuction "P01" "bob" (.finite 100))
        "P01" "bob" (.finite 100)).auctionQueue =
      (auctionSellTo stateAuction "P01" "bob" (.finite 100)).auctionQueue := by
  exact c2_no_double_charge_guard stateAuction "P01" "bob" (.finite 100)
    (sampleProp "P01" none false 0) (samplePlayer "bob" 1000) rfl rfl
    (by decide) (by decide)

/-! ## Claim C4 -/

theorem mortgageValue_nonneg (pid : String) : 0 ≤ mortgageValue pid := by
  unfold mortgageValue
  cases h : getDef pid with
  | none => simp
  | some d =>
    have hd : d ∈ PROPERTY_DEFS := List.mem_of_find?_eq_some h
    have hall : ∀ x ∈ PROPERTY_DEFS, 0 ≤ x.price / 2 := by decide
    simpa using hall d hd

theorem ceilTenth_nonneg (mv : Int) (h : 0 ≤ mv) : 0 ≤ ceilTenth mv := by
  unfold ceilTenth
  omega

/-- C4 counterexample: with the owner's balance at the clamp ceiling
9,999,999 the mortgage credit is clamped away, so the round trip costs the
full redemption fee 33 instead of the claimed `ceil(mv*0.10) = 3`. -/
theorem c4_clamp_breaks_roundtrip :
    mortgageValue "P01" = 30
  ∧ ceilTenth (mortgageValue "P01") = 3
  ∧ balanceOf stateClamp "alice" = 9999999
  ∧ balanceOf (doUnmortgage (doMortgage stateClamp "P01") "P01") "alice" = 9999966 := by
  refine ⟨by decide, by decide, by decide, by decide⟩

/-- C4 amended: for a mortgage-free owned property whose color group holds
no buildings and whose owner can cover the redemption interest, provided
the owner's balance stays inside the money clamp
(`-9,999,999 ≤ balance` and `balance + mortgageValue ≤ 9,999,999`),
`doMortgage` then `doUnmortgage` restores the property state exactly and
the owner's net cash change is `-ceil(mortgageValue*0.10)`; every other
property, every other player, the bank inventory and the auction queue
are unchanged. -/
theorem c4_mortgage_roundtrip (s : GameState) (pid o : String) (ps : PropertyState)
    (pl : Player)
    (hOk : canMortgage s pid = .ok ())
    (hps : recGet s.props pid = some ps) (ho : ps.owner = some o)
    (hmort : ps.mortgaged = false) (hpl : recGet s.players o = some pl)
    (hlow : -9999999 ≤ pl.balance)
    (hhigh : pl.balance + mortgageValue pid ≤ 9999999)
    (hcov : ceilTenth (mortgageValue pid) ≤ pl.balance) :
    recGet (doUnmortgage (doMortgage s pid) pid).props pid = some ps
  ∧ recGet (doUnmortgage (doMortgage s pid) pid).players o =
      some { pl with balance := pl.balance - ceilTenth (mortgageValue pid) }
  ∧ (∀ q, q ≠ pid → recGet (doUnmortgage (doMortgage s pid) pid).props q = recGet s.props q)
  ∧ (∀ k, k ≠ o → recGet (doUnmortgage (doMortgage s pid) pid).players k = recGet s.players k)
  ∧ (doUnmortgage (doMortgage s pid) pid).bank = s.bank
  ∧ (doUnmortgage (doMortgage s pid) pid).auctionQueue = s.auctionQueue := by
  have hmv0 : 0 ≤ mortgageValue pid := mortgageValue_nonneg pid
  have hct0 : 0 ≤ ceilTenth (mortgageValue pid) := ceilTenth_nonneg _ hmv0
  have hclamp1 : clampInt (pl.balance + mortgageValue pid) = pl.balance + mortgageValue pid := by
    unfold clampInt
    omega
  have h1 : (doMortgage s pid).props = recSet s.props pid { ps with mortgaged := true }
      ∧ (doMortgage s pid).players =
          recSet s.players o { pl with balance := clampInt (pl.balance + mortgageValue pid) }
      ∧ (doMortgage s pid).bank = s.bank
      ∧ (doMortgage s pid).auctionQueue = s.auctionQueue := by
    unfold doMortgage
    repeat' split
    all_goals simp_all [addTx]
  have hbal1 : balanceOf (doMortgage s pid) o = pl.balance + mortgageValue pid := by
    unfold balanceOf
    rw [h1.2.1, recGet_recSet_self]
    exact hclamp1
  have hget1 : recGet (doMortgage s pid).props pid = some { ps with mortgaged := true } := by
    rw [h1.1, recGet_recSet_self]
  have h2 : canUnmortgage (doMortgage s pid) pid =
      .ok (mortgageValue pid + ceilTenth (mortgageValue pid)) := by
    unfold canUnmortgage
    rw [hget1]
    have hcond : ¬ balanceOf (doMortgage s pid) o <
        mortgageValue pid + ceilTenth (mortgageValue pid) := by
      rw [hbal1]
      omega
    simp [ho, hcond]
  have hget1p : recGet (doMortgage s pid).players o =
      some { pl with balance := clampInt (pl.balance + mortgageValue pid) } := by
    rw [h1.2.1, recGet_recSet_self]
  have h3 : (doUnmortgage (doMortgage s pid) pid).props =
        recSet (doMortgage s pid).props pid ps
      ∧ (doUnmortgage (doMortgage s pid) pid).players =
          recSet (doMortgage s pid).players o
            { pl with balance := clampInt (clampInt (pl.balance + mortgageValue pid)
                - (mortgageValue pid + ceilTenth (mortgageValue pid))) }
      ∧ (doUnmortgage (doMortgage s pid) pid).bank = (doMortgage s pid).bank
      ∧ (doUnmortgage (doMortgage s pid) pid).auctionQueue =
          (doMortgage s pid).auctionQueue := by
    have hpseta : ({ id := ps.id, owner := some o, mortgaged := false, buildings := ps.buildings } : PropertyState) = ps := by
      cases ps
      simp_all
    unfold doUnmortgage
    simp only [h2, hget1, ho, hget1p, addTx, hpseta]
    exact ⟨trivial, trivial, trivial, trivial⟩
  have hfinalbal : clampInt (clampInt (pl.balance + mortgageValue pid)
      - (mortgageValue pid + ceilTenth (mortgageValue pid)))
      = pl.balance - ceilTenth (mortgageValue pid) := by
    rw [hclamp1]
    unfold clampInt
    omega
  refine ⟨?_, ?_, ?_, ?_, ?_, ?_⟩
  · rw [h3.1, recGet_recSet_self]
  · rw [h3.2.1, recGet_recSet_self, hfinalbal]
  · intro q hq
    rw [h3.1, recGet_recSet_ne _ _ _ _ hq, h1.1, recGet_recSet_ne _ _ _ _ hq]
  · intro k hk
    rw [h3.2.1, recGet_recSet_ne _ _ _ _ hk, h1.2.1, recGet_recSet_ne _ _ _ _ hk]
  · rw [h3.2.2.1, h1.2.2.1]
  · rw [h3.2.2.2, h1.2.2.2]

/-- Witness for the amended C4 on a modest concrete state (alice at 100,
P01 mortgaged and redeemed; net cost 3). -/
theorem c4_mortgage_roundtrip_witness :
    recGet (doUnmortgage (doMortgage stateMortgage "P01") "P01").props "P01" =
      some (sampleProp "P01" (some "alice") false 0)
  ∧ recGet (doUnmortgage (doMortgage stateMortgage "P01") "P01").players "alice" =
      some { samplePlayer "alice" 100 with
             balance := (samplePlayer "alice" 100).balance - ceilTenth (mortgageValue "P01") }
  ∧ (∀ q, q ≠ "P01" →
      recGet (doUnmortgage (doMortgage stateMortgage "P01") "P01").props q =
        recGet stateMortgage.props q)
  ∧ (∀ k, k ≠ "alice" →
      recGet (doUnmortgage (doMortgage stateMortgage "P01") "P01").players k =
        recGet stateMortgage.players k)
  ∧ (doUnmortgage (doMortgage stateMortgage "P01") "P01").bank = stateMortgage.bank
  ∧ (doUnmortgage (doMortgage stateMortgage "P01") "P01").auctionQueue =
      stateMortgage.auctionQueue := by
  exact c4_mortgage_roundtrip stateMortgage "P01" "alice"
    (sampleProp "P01" (some "alice") false 0) (samplePlayer "alice" 100)
    rfl rfl rfl rfl rfl (by decide) (by decide) (by decide)

/-! ## Claims C5 and C6: building -/

theorem foldl_min_le_self (xs : List Int) (a : Int) : xs.foldl min a ≤ a := by
  induction xs generalizing a with
  | nil => simp
  | cons x xs ih =>
    simp only [List.foldl_cons]
    exact le_trans (ih (min a x)) (min_le_left a x)

theorem foldl_min_le_mem (xs : List Int) (a y : Int) (hy : y ∈ xs) :
    xs.foldl min a ≤ y := by
  induction xs generalizing a with
  | nil => cases hy
  | cons x xs ih =>
    simp only [List.foldl_cons]
    rcases List.mem_cons.mp hy with h | h
    · subst h
      exact le_trans (foldl_min_le_self xs (min a y)) (min_le_right a y)
    · exact ih (min a x) h

/-- `Math.min(...levels)` bounds every member from below. -/
theorem jsMin_le (l : List Int) (m y : Int) (h : jsMin l = some m) (hy : y ∈ l) :
    m ≤ y := by
  cases l with
  | nil => exact Option.noConfusion h
  | cons x xs =>
    unfold jsMin at h
    injection h with h
    subst h
    rcases List.mem_cons.mp hy with rfl | hmem
    · exact foldl_min_le_self xs y
    · exact foldl_min_le_mem xs x y hmem

/-- A street definition's own id belongs to its group's street list. -/
theorem mem_groupProps_self (pid : String) (d : PropertyDef)
    (hd : getDef pid = some d) (hk : d.kind = .street) :
    pid ∈ groupProps d.group := by
  have hmem : d ∈ PROPERTY_DEFS := List.mem_of_find?_eq_some hd
  have hid : d.id = pid := by
    have := List.find?_some hd
    simpa using this
  unfold groupProps
  rw [← hid]
  apply List.mem_map_of_mem
  rw [List.mem_filter]
  exact ⟨hmem, by simp [hk]⟩

set_option maxHeartbeats 2000000 in
/-- Inverting a successful `canBuildHouse`: the definition is a street and
the target's level is the group minimum (the even-building gate). -/
theorem canBuildHouse_ok_min (s : GameState) (pid : String) (cost : Int)
    (d : PropertyDef) (ps : PropertyState)
    (hOk : canBuildHouse s pid = .ok cost)
    (hd : getDef pid = some d) (hps : recGet s.props pid = some ps) :
    d.kind = .street ∧
    jsMin ((groupProps d.group).map (buildingsAt s)) = some ps.buildings := by
  unfold canBuildHouse canBuildHouseCost at hOk
  rw [hd, hps] at hOk
  repeat' first
    | split at hOk
    | simp only [] at hOk
  all_goals first
    | exact Except.noConfusion hOk
    | (constructor
       · simp_all
       · simp_all)

/-- Effect of a successful build on building counts: only the target rises,
by one. -/
theorem doBuild_buildingsAt (s : GameState) (pid o : String) (cost : Int)
    (ps : PropertyState) (pl : Player)
    (hOk : canBuildHouse s pid = .ok cost) (hps : recGet s.props pid = some ps)
    (ho : ps.owner = some o) (hpl : recGet s.players o = some pl) :
    ∀ q, buildingsAt (doBuild s pid) q =
      if q = pid then ps.buildings + 1 else buildingsAt s q := by
  intro q
  unfold doBuild
  simp only [hOk, hps, ho, hpl, addTx]
  unfold buildingsAt
  by_cases hq : q = pid
  · subst hq
    simp [recGet_recSet_self]
  · simp [recGet_recSet_ne _ _ _ _ hq, hq]

/-- C5: `build(p)` succeeds only when `p`'s level equals the minimum level
within its color group, and a successful build preserves the even-building
invariant `max − min ≤ 1` (stated pairwise). -/
theorem c5_even_building (s : GameState) (pid o : String) (cost : Int)
    (d : PropertyDef) (ps : PropertyState) (pl : Player)
    (hd : getDef pid = some d) (hps : recGet s.props pid = some ps)
    (ho : ps.owner = some o) (hpl : recGet s.players o = some pl)
    (hOk : canBuildHouse s pid = .ok cost) :
    jsMin ((groupProps d.group).map (buildingsAt s)) = some ps.buildings
  ∧ ((∀ i ∈ groupProps d.group, ∀ j ∈ groupProps d.group,
        buildingsAt s i - buildingsAt s j ≤ 1) →
      ∀ i ∈ groupProps d.group, ∀ j ∈ groupProps d.group,
        buildingsAt (doBuild s pid) i - buildingsAt (doBuild s pid) j ≤ 1) := by
  obtain ⟨hkind, hmin⟩ := canBuildHouse_ok_min s pid cost d ps hOk hd hps
  refine ⟨hmin, ?_⟩
  intro hpre i hi j hj
  have hpidmem : pid ∈ groupProps d.group := mem_groupProps_self pid d hd hkind
  have hbuild := doBuild_buildingsAt s pid o cost ps pl hOk hps ho hpl
  have hlbj : ps.buildings ≤ buildingsAt s j :=
    jsMin_le _ _ _ hmin (List.mem_map_of_mem _ hj)
  have hlbi : ps.buildings ≤ buildingsAt s i :=
    jsMin_le _ _ _ hmin (List.mem_map_of_mem _ hi)
  have hpre1 := hpre i hi j hj
  have hpre2 := hpre i hi pid hpidmem
  have hpid_b : buildingsAt s pid = ps.buildings := by
    unfold buildingsAt
    rw [hps]
  rw [hbuild i, hbuild j]
  by_cases hip : i = pid <;> by_cases hjp : j = pid <;> simp [hip, hjp] <;> omega

/-- Witness for C5 on the concrete buildable state (brown group, all
levels zero). -/
theorem c5_even_building_witness :
    jsMin ((groupProps defP01.group).map (buildingsAt stateBuild)) =
      some (sampleProp "P01" (some "alice") false 0).buildings
  ∧ ((∀ i ∈ groupProps defP01.group, ∀ j ∈ groupProps defP01.group,
        buildingsAt stateBuild i - buildingsAt stateBuild j ≤ 1) →
      ∀ i ∈ groupProps defP01.group, ∀ j ∈ groupProps defP01.group,
        buildingsAt (doBuild stateBuild "P01") i - buildingsAt (doBuild stateBuild "P01") j ≤ 1) := by
  exact c5_even_building stateBuild "P01" "alice" 50 defP01
    (sampleProp "P01" (some "alice") false 0) (samplePlayer "alice" 1000)
    rfl rfl rfl rfl rfl

/-- C6: bank inventory bookkeeping.  A successful build from level 4
consumes one hotel and returns four houses; any other successful build
consumes one house.  A successful sale from level 5 returns one hotel and
removes four houses clamped at zero; any other successful sale returns one
house.  (The owner's player record is assumed to exist: without it the
source throws on the balance update, so no operation completes.) -/
theorem c6_bank_inventory (s : GameState) (pid o : String) (ps : PropertyState)
    (pl : Player) (hps : recGet s.props pid = some ps) (ho : ps.owner = some o)
    (hpl : recGet s.players o = some pl) :
    (∀ cost, canBuildHouse s pid = .ok cost →
      (doBuild s pid).bank =
        (if ps.buildings = 4 then
          { housesAvailable := s.bank.housesAvailable + 4,
            hotelsAvailable := s.bank.hotelsAvailable - 1 }
         else { s.bank with housesAvailable := s.bank.housesAvailable - 1 }))
  ∧ (∀ value, canSellBuilding s pid = .ok value →
      (doSellBuilding s pid).bank =
        (if ps.buildings = 5 then
          { housesAvailable := max 0 (s.bank.housesAvailable - 4),
            hotelsAvailable := s.bank.hotelsAvailable + 1 }
         else { s.bank with housesAvailable := s.bank.housesAvailable + 1 })) := by
  constructor
  · intro cost hOk
    unfold doBuild
    simp [hOk, hps, ho, hpl, addTx]
  · intro value hOk
    unfold doSellBuilding
    simp [hOk, hps, ho, hpl, addTx]

/-- Witness for C6: a house purchase on the fresh brown group and a house
sale on the improved one. -/
theorem c6_bank_inventory_witness :
    (doBuild stateBuild "P01").bank =
      (if (sampleProp "P01" (some "alice") false 0).buildings = 4 then
        { housesAvailable := stateBuild.bank.housesAvailable + 4,
          hotelsAvailable := stateBuild.bank.hotelsAvailable - 1 }
       else { stateBuild.bank with housesAvailable := stateBuild.bank.housesAvailable - 1 })
  ∧ (doSellBuilding stateSell "P01").bank =
      (if (sampleProp "P01" (some "alice") false 1).buildings = 5 then
        { housesAvailable := max 0 (stateSell.bank.housesAvailable - 4),
          hotelsAvailable := stateSell.bank.hotelsAvailable + 1 }
       else { stateSell.bank with housesAvailable := stateSell.bank.housesAvailable + 1 }) := by
  constructor
  · exact (c6_bank_inventory stateBuild "P01" "alice"
      (sampleProp "P01" (some "alice") false 0) (samplePlayer "alice" 1000)
      rfl rfl rfl).1 50 rfl
  · exact (c6_bank_inventory stateSell "P01" "alice"
      (sampleProp "P01" (some "alice") false 1) (samplePlayer "alice" 1000)
      rfl rfl rfl).2 25 rfl

/-! ## Claim C1: bankruptcy to a player -/

theorem buildingsAt_eq_of_props {s s' : GameState} (h : s'.props = s.props) (i : String) :
    buildingsAt s' i = buildingsAt s i := by
  unfold buildingsAt
  rw [h]

theorem transferCash_buildingsAt (s : GameState) (a b : String) (n : JSNum)
    (note : String) (i : String) :
    buildingsAt (transferCash s a b n note) i = buildingsAt s i :=
  buildingsAt_eq_of_props (transferCash_frame s a b n note).1 i

theorem transferProperty_buildingsAt (s : GameState) (pid : String) (t : Option String)
    (note : String) (i : String) :
    buildingsAt (transferProperty s pid t note) i = buildingsAt s i := by
  unfold transferProperty
  cases hx : recGet s.props pid with
  | none => rfl
  | some ps =>
    unfold buildingsAt
    simp only [addTx]
    by_cases hi : i = pid
    · subst hi
      rw [recGet_recSet_self, hx]
    · rw [recGet_recSet_ne _ _ _ _ hi]

/-- `doSellBuilding` leaves every other property's level unchanged and
lowers the target's level by at most one. -/
theorem doSellBuilding_buildings (s : GameState) (pid : String) :
    (∀ i, i ≠ pid → buildingsAt (doSellBuilding s pid) i = buildingsAt s i)
  ∧ buildingsAt s pid - 1 ≤ buildingsAt (doSellBuilding s pid) pid := by
  cases hc : canSellBuilding s pid with
  | error r =>
    have hpr : (doSellBuilding s pid).props = s.props := by
      unfold doSellBuilding
      rw [hc]
      rfl
    refine ⟨fun i hi => buildingsAt_eq_of_props hpr i, ?_⟩
    have := buildingsAt_eq_of_props hpr pid
    omega
  | ok v =>
    cases hps : recGet s.props pid with
    | none =>
      have hpr : (doSellBuilding s pid).props = s.props := by
        unfold doSellBuilding
        simp only [hc, hps]
      refine ⟨fun i hi => buildingsAt_eq_of_props hpr i, ?_⟩
      have := buildingsAt_eq_of_props hpr pid
      omega
    | some ps =>
      cases ho : ps.owner with
      | none =>
        have hpr : (doSellBuilding s pid).props = s.props := by
          unfold doSellBuilding
          simp only [hc, hps, ho]
        refine ⟨fun i hi => buildingsAt_eq_of_props hpr i, ?_⟩
        have := buildingsAt_eq_of_props hpr pid
        omega
      | some o =>
        cases hpl : recGet s.players o with
        | none =>
          have hpr : (doSellBuilding s pid).props = s.props := by
            unfold doSellBuilding
            simp only [hc, hps, ho, hpl]
          refine ⟨fun i hi => buildingsAt_eq_of_props hpr i, ?_⟩
          have := buildingsAt_eq_of_props hpr pid
          omega
        | some pl =>
          have hpr : (doSellBuilding s pid).props =
              recSet s.props pid { ps with buildings := ps.buildings - 1 } := by
            unfold doSellBuilding
            simp only [hc, hps, ho, hpl, addTx]
          have e1 : buildingsAt s pid = ps.buildings := by
            unfold buildingsAt
            rw [hps]
          have e2 : buildingsAt (doSellBuilding s pid) pid = ps.buildings - 1 := by
            unfold buildingsAt
            rw [hpr, recGet_recSet_self]
          refine ⟨fun i hi => ?_, by omega⟩
          unfold buildingsAt
          rw [hpr, recGet_recSet_ne _ _ _ _ hi]

/-- One truncated-drain iteration: other properties' levels are unchanged,
the focused property loses at most one level. -/
theorem bankruptcyPlayerStep1_buildings (debtor creditor : String) (s : GameState)
    (d : PropertyDef) :
    (∀ i, i ≠ d.id →
      buildingsAt (bankruptcyPlayerStep1 debtor creditor s d) i = buildingsAt s i)
  ∧ buildingsAt s d.id - 1 ≤ buildingsAt (bankruptcyPlayerStep1 debtor creditor s d) d.id := by
  cases hps : recGet s.props d.id with
  | none =>
    have h0 : bankruptcyPlayerStep1 debtor creditor s d = s := by
      unfold bankruptcyPlayerStep1
      rw [hps]
    rw [h0]
    exact ⟨fun i hi => rfl, by omega⟩
  | some ps =>
    by_cases h1 : ps.owner = some debtor
    case neg =>
      have h0 : bankruptcyPlayerStep1 debtor creditor s d = s := by
        unfold bankruptcyPlayerStep1
        simp [hps, h1]
      rw [h0]
      exact ⟨fun i hi => rfl, by omega⟩
    case pos =>
    by_cases h2 : d.kind = .street
    case neg =>
      have h0 : bankruptcyPlayerStep1 debtor creditor s d = s := by
        unfold bankruptcyPlayerStep1
        simp [hps, h1, h2]
      rw [h0]
      exact ⟨fun i hi => rfl, by omega⟩
    case pos =>
    by_cases h3 : 0 < ps.buildings
    case neg =>
      have h0 : bankruptcyPlayerStep1 debtor creditor s d = s := by
        unfold bankruptcyPlayerStep1
        simp [hps, h1, h2, h3]
      rw [h0]
      exact ⟨fun i hi => rfl, by omega⟩
    case pos =>
    have hsell := doSellBuilding_buildings s d.id
    by_cases h4 : 0 < balanceOf (doSellBuilding s d.id) debtor - balanceOf s debtor
    · have h0 : bankruptcyPlayerStep1 debtor creditor s d =
          transferCash (doSellBuilding s d.id) debtor creditor
            (.finite (balanceOf (doSellBuilding s d.id) debtor - balanceOf s debtor))
            "Liquidación por bancarrota (edificios)" := by
        unfold bankruptcyPlayerStep1
        simp [hps, h1, h2, h3, h4]
      rw [h0]
      refine ⟨fun i hi => ?_, ?_⟩
      · rw [transferCash_buildingsAt]
        exact hsell.1 i hi
      · rw [transferCash_buildingsAt]
        exact hsell.2
    · have h0 : bankruptcyPlayerStep1 debtor creditor s d = doSellBuilding s d.id := by
        unfold bankruptcyPlayerStep1
        simp [hps, h1, h2, h3, h4]
      rw [h0]
      exact ⟨hsell.1, hsell.2⟩

theorem foldl_step1_not_mem (debtor creditor : String) (L : List PropertyDef)
    (s : GameState) (i : String) (h : ∀ d ∈ L, d.id ≠ i) :
    buildingsAt (L.foldl (bankruptcyPlayerStep1 debtor creditor) s) i = buildingsAt s i := by
  induction L generalizing s with
  | nil => rfl
  | cons d L ih =>
    simp only [List.foldl_cons]
    rw [ih _ (fun e he => h e (List.mem_cons_of_mem _ he))]
    exact (bankruptcyPlayerStep1_buildings debtor creditor s d).1 i
      (Ne.symm (h d (List.mem_cons_self _ _)))

theorem foldl_step1_bound (debtor creditor : String) (L : List PropertyDef)
    (hnd : (L.map PropertyDef.id).Nodup) (s : GameState) (i : String) :
    buildingsAt s i - 1 ≤ buildingsAt (L.foldl (bankruptcyPlayerStep1 debtor creditor) s) i := by
  induction L generalizing s with
  | nil =>
    simp only [List.foldl_nil]
    omega
  | cons d L ih =>
    simp only [List.foldl_cons]
    rw [List.map_cons] at hnd
    have hnd2 := List.nodup_cons.mp hnd
    by_cases hi : i = d.id
    · subst hi
      have hnotin : ∀ e ∈ L, e.id ≠ d.id := by
        intro e he heq
        exact hnd2.1 (heq ▸ List.mem_map_of_mem _ he)
      rw [foldl_step1_not_mem _ _ L _ d.id hnotin]
      exact (bankruptcyPlayerStep1_buildings debtor creditor s d).2
    · have hstep := (bankruptcyPlayerStep1_buildings debtor creditor s d).1 i hi
      have := ih hnd2.2 (bankruptcyPlayerStep1 debtor creditor s d)
      omega

theorem bankruptcyPlayerStep2_buildings (debtor creditor : String) (s : GameState)
    (d : PropertyDef) (i : String) :
    buildingsAt (bankruptcyPlayerStep2 debtor creditor s d) i = buildingsAt s i := by
  unfold bankruptcyPlayerStep2
  cases hps : recGet s.props d.id with
  | none => rfl
  | some ps =>
    by_cases h1 : ps.owner ≠ some debtor
    · simp only [if_pos h1]
    · simp only [if_neg h1]
      by_cases h2 : ps.mortgaged
      · simp only [if_pos h2]
        rw [transferCash_buildingsAt, transferProperty_buildingsAt]
      · simp only [if_neg h2]
        rw [transferProperty_buildingsAt]

theorem foldl_step2_buildings (debtor creditor : String) (L : List PropertyDef)
    (s : GameState) (i : String) :
    buildingsAt (L.foldl (bankruptcyPlayerStep2 debtor creditor) s) i = buildingsAt s i := by
  induction L generalizing s with
  | nil => rfl
  | cons d L ih =>
    simp only [List.foldl_cons]
    rw [ih, bankruptcyPlayerStep2_buildings]

/-- C1 amended: `declareBankruptcyToPlayer` drains AT MOST ONE building
level per property (the source's `while` loop ends in an unconditional
`break`): after the call every property's building count is at least its
previous count minus one — in particular a debtor street with two or more
buildings still has buildings > 0. -/
theorem c1_truncated_drain (s : GameState) (debtor creditor i : String) :
    buildingsAt s i - 1 ≤ buildingsAt (declareBankruptcyToPlayer s debtor creditor) i := by
  cases h1 : recGet s.players debtor with
  | none =>
    have hkill : declareBankruptcyToPlayer s debtor creditor = s := by
      unfold declareBankruptcyToPlayer
      rw [h1]
    rw [hkill]
    omega
  | some pd =>
    cases h2 : recGet s.players creditor with
    | none =>
      have hkill : declareBankruptcyToPlayer s debtor creditor = s := by
        unfold declareBankruptcyToPlayer
        rw [h1, h2]
      rw [hkill]
      omega
    | some pc =>
      have hprops : (declareBankruptcyToPlayer s debtor creditor).props =
          (PROPERTY_DEFS.foldl (bankruptcyPlayerStep2 debtor creditor)
            (PROPERTY_DEFS.foldl (bankruptcyPlayerStep1 debtor creditor) s)).props := by
        unfold declareBankruptcyToPlayer
        rw [h1, h2]
        simp only [addTx]
        split
        · exact (transferCash_frame _ _ _ _ _).1
        · rfl
      have hnd : (PROPERTY_DEFS.map PropertyDef.id).Nodup := by decide
      have hb1 := foldl_step1_bound debtor creditor PROPERTY_DEFS hnd s i
      have hb2 := foldl_step2_buildings debtor creditor PROPERTY_DEFS
        (PROPERTY_DEFS.foldl (bankruptcyPlayerStep1 debtor creditor) s) i
      have hb3 := buildingsAt_eq_of_props hprops i
      omega

set_option maxRecDepth 10000 in
/-- C1 counterexample: debtor alice holds two houses on each brown street;
after `declareBankruptcyToPlayer` the loop has sold exactly one level per
property, so P01 — formerly owned by the debtor with 2 buildings — still
has 1 building, refuting "continuing until each such property holds zero
buildings"; the single drained level's payout 25 per street did go to the
creditor. -/
theorem c1_truncated_drain_counterexample :
    (recGet stateDrain.props "P01").map PropertyState.owner = some (some "alice")
  ∧ (recGet stateDrain.props "P01").map PropertyState.buildings = some 2
  ∧ buildingsAt (declareBankruptcyToPlayer stateDrain "alice" "bob") "P01" = 1
  ∧ balanceOf (declareBankruptcyToPlayer stateDrain "alice" "bob") "bob" = 50 := by
  exact ⟨rfl, rfl, by decide, by decide⟩

/-! ## Claim C7: bankruptcy to the bank -/

theorem property_defs_nodup : (PROPERTY_DEFS.map PropertyDef.id).Nodup := by
  decide

theorem bankruptcyBankStep1_get_ne (debtor : String)
    (props : List (String × PropertyState)) (d : PropertyDef) (i : String)
    (h : i ≠ d.id) :
    recGet (bankruptcyBankStep1 debtor props d) i = recGet props i := by
  cases hx : recGet props d.id with
  | none =>
    have h0 : bankruptcyBankStep1 debtor props d = props := by
      unfold bankruptcyBankStep1
      rw [hx]
    rw [h0]
  | some ps =>
    by_cases hcond : ps.owner = some debtor ∧ d.kind = .street ∧ 0 < ps.buildings
    · have h0 : bankruptcyBankStep1 debtor props d =
          recSet props d.id { ps with buildings := 0 } := by
        unfold bankruptcyBankStep1
        simp [hx, hcond]
      rw [h0, recGet_recSet_ne _ _ _ _ h]
    · have h0 : bankruptcyBankStep1 debtor props d = props := by
        unfold bankruptcyBankStep1
        simp [hx, hcond]
      rw [h0]

theorem bankruptcyBankStep1_get_self (debtor : String)
    (props : List (String × PropertyState)) (d : PropertyDef) (ps : PropertyState)
    (hps : recGet props d.id = some ps) :
    recGet (bankruptcyBankStep1 debtor props d) d.id =
      some (if ps.owner = some debtor ∧ d.kind = .street ∧ 0 < ps.buildings then
        { ps with buildings := 0 } else ps) := by
  by_cases hcond : ps.owner = some debtor ∧ d.kind = .street ∧ 0 < ps.buildings
  · have h0 : bankruptcyBankStep1 debtor props d =
        recSet props d.id { ps with buildings := 0 } := by
      unfold bankruptcyBankStep1
      simp [hps, hcond]
    rw [h0, recGet_recSet_self, if_pos hcond]
  · have h0 : bankruptcyBankStep1 debtor props d = props := by
      unfold bankruptcyBankStep1
      simp [hps, hcond]
    rw [h0, hps, if_neg hcond]

theorem foldl_bankStep1_not_mem (debtor : String) (L : List PropertyDef)
    (props : List (String × PropertyState)) (i : String) (h : ∀ d ∈ L, d.id ≠ i) :
    recGet (L.foldl (bankruptcyBankStep1 debtor) props) i = recGet props i := by
  induction L generalizing props with
  | nil => rfl
  | cons e L ih =>
    simp only [List.foldl_cons]
    rw [ih _ (fun x hx => h x (List.mem_cons_of_mem _ hx))]
    exact bankruptcyBankStep1_get_ne debtor props e i
      (Ne.symm (h e (List.mem_cons_self _ _)))

theorem foldl_bankStep1_mem (debtor : String) (L : List PropertyDef) (d : PropertyDef) :
    ∀ (props : List (String × PropertyState)) (ps : PropertyState),
      (L.map PropertyDef.id).Nodup → d ∈ L → recGet props d.id = some ps →
    recGet (L.foldl (bankruptcyBankStep1 debtor) props) d.id =
      some (if ps.owner = some debtor ∧ d.kind = .street ∧ 0 < ps.buildings then
        { ps with buildings := 0 } else ps) := by
  induction L with
  | nil =>
    intro props ps hnd hd hps
    cases hd
  | cons e L ih =>
    intro props ps hnd hd hps
    simp only [List.foldl_cons]
    rw [List.map_cons] at hnd
    have hnd2 := List.nodup_cons.mp hnd
    rcases List.mem_cons.mp hd with rfl | hmem
    · have hnotin : ∀ x ∈ L, x.id ≠ d.id := fun x hx heq =>
        hnd2.1 (heq ▸ List.mem_map_of_mem _ hx)
      rw [foldl_bankStep1_not_mem debtor L _ d.id hnotin]
      exact bankruptcyBankStep1_get_self debtor props d ps hps
    · have hne : d.id ≠ e.id := fun heq =>
        hnd2.1 (heq ▸ List.mem_map_of_mem _ hmem)
      exact ih _ ps hnd2.2 hmem
        (by rw [bankruptcyBankStep1_get_ne _ _ _ _ hne]; exact hps)

theorem bankruptcyBankStep2_eq (debtor : String) (acc : GameState × List String)
    (d : PropertyDef) :
    bankruptcyBankStep2 debtor acc d = acc
  ∨ ∃ ps, recGet acc.1.props d.id = some ps ∧ ps.owner = some debtor ∧
      bankruptcyBankStep2 debtor acc d =
        ({ acc.1 with props := recSet acc.1.props d.id { ps with owner := none, mortgaged := false } }, acc.2 ++ [d.id]) := by
  cases hx : recGet acc.1.props d.id with
  | none =>
    left
    unfold bankruptcyBankStep2
    rw [hx]
  | some ps =>
    by_cases how : ps.owner = some debtor
    · right
      refine ⟨ps, rfl, how, ?_⟩
      unfold bankruptcyBankStep2
      simp [hx, how]
    · left
      unfold bankruptcyBankStep2
      simp [hx, how]

theorem bankruptcyBankStep2_players (debtor : String) (acc : GameState × List String)
    (d : PropertyDef) :
    (bankruptcyBankStep2 debtor acc d).1.players = acc.1.players := by
  rcases bankruptcyBankStep2_eq debtor acc d with h0 | ⟨ps, _, _, h0⟩ <;> rw [h0]

theorem bankruptcyBankStep2_get_ne (debtor : String) (acc : GameState × List String)
    (d : PropertyDef) (i : String) (h : i ≠ d.id) :
    recGet (bankruptcyBankStep2 debtor acc d).1.props i = recGet acc.1.props i
  ∧ (bankruptcyBankStep2 debtor acc d).2.count i = acc.2.count i := by
  rcases bankruptcyBankStep2_eq debtor acc d with h0 | ⟨ps, _, _, h0⟩
  · rw [h0]
    exact ⟨rfl, rfl⟩
  · rw [h0]
    constructor
    · rw [recGet_recSet_ne _ _ _ _ h]
    · simp [List.count_append, List.count_singleton, Ne.symm h]

theorem bankruptcyBankStep2_self (debtor : String) (acc : GameState × List String)
    (d : PropertyDef) (ps : PropertyState)
    (hps : recGet acc.1.props d.id = some ps) (how : ps.owner = some debtor) :
    recGet (bankruptcyBankStep2 debtor acc d).1.props d.id =
      some { ps with owner := none, mortgaged := false }
  ∧ (bankruptcyBankStep2 debtor acc d).2.count d.id = acc.2.count d.id + 1 := by
  have h0 : bankruptcyBankStep2 debtor acc d =
      ({ acc.1 with props := recSet acc.1.props d.id { ps with owner := none, mortgaged := false } }, acc.2 ++ [d.id]) := by
    unfold bankruptcyBankStep2
    simp [hps, how]
  rw [h0]
  constructor
  · rw [recGet_recSet_self]
  · simp [List.count_append, List.count_singleton_self]

theorem foldl_bankStep2_not_mem (debtor : String) (L : List PropertyDef)
    (acc : GameState × List String) (i : String) (h : ∀ d ∈ L, d.id ≠ i) :
    recGet (L.foldl (bankruptcyBankStep2 debtor) acc).1.props i = recGet acc.1.props i
  ∧ (L.foldl (bankruptcyBankStep2 debtor) acc).2.count i = acc.2.count i := by
  induction L generalizing acc with
  | nil => exact ⟨rfl, rfl⟩
  | cons e L ih =>
    simp only [List.foldl_cons]
    have hstep := bankruptcyBankStep2_get_ne debtor acc e i
      (Ne.symm (h e (List.mem_cons_self _ _)))
    have hrest := ih (bankruptcyBankStep2 debtor acc e)
      (fun x hx => h x (List.mem_cons_of_mem _ hx))
    exact ⟨hrest.1.trans hstep.1, hrest.2.trans hstep.2⟩

theorem foldl_bankStep2_players (debtor : String) (L : List PropertyDef)
    (acc : GameState × List String) :
    (L.foldl (bankruptcyBankStep2 debtor) acc).1.players = acc.1.players := by
  induction L generalizing acc with
  | nil => rfl
  | cons e L ih =>
    simp only [List.foldl_cons]
    rw [ih, bankruptcyBankStep2_players]

theorem foldl_bankStep2_mem (debtor : String) (L : List PropertyDef) (d : PropertyDef) :
    ∀ (acc : GameState × List String) (ps : PropertyState),
      (L.map PropertyDef.id).Nodup → d ∈ L →
      recGet acc.1.props d.id = some ps → ps.owner = some debtor →
    recGet (L.foldl (bankruptcyBankStep2 debtor) acc).1.props d.id =
      some { ps with owner := none, mortgaged := false }
  ∧ (L.foldl (bankruptcyBankStep2 debtor) acc).2.count d.id = acc.2.count d.id + 1 := by
  induction L with
  | nil =>
    intro acc ps hnd hd hps how
    cases hd
  | cons e L ih =>
    intro acc ps hnd hd hps how
    simp only [List.foldl_cons]
    rw [List.map_cons] at hnd
    have hnd2 := List.nodup_cons.mp hnd
    rcases List.mem_cons.mp hd with rfl | hmem
    · have hnotin : ∀ x ∈ L, x.id ≠ d.id := fun x hx heq =>
        hnd2.1 (heq ▸ List.mem_map_of_mem _ hx)
      have hstep := bankruptcyBankStep2_self debtor acc d ps hps how
      have hrest := foldl_bankStep2_not_mem debtor L
        (bankruptcyBankStep2 debtor acc d) d.id hnotin
      refine ⟨hrest.1.trans hstep.1, ?_⟩
      rw [hrest.2, hstep.2]
    · have hne : d.id ≠ e.id := fun heq =>
        hnd2.1 (heq ▸ List.mem_map_of_mem _ hmem)
      have hstep := bankruptcyBankStep2_get_ne debtor acc e d.id hne
      have hres := ih (bankruptcyBankStep2 debtor acc e) ps hnd2.2 hmem
        (hstep.1.trans hps) how
      refine ⟨hres.1, ?_⟩
      rw [hres.2, hstep.2]

set_option maxHeartbeats 2000000 in
/-- C7 amended: after `declareBankruptcyToBank(d)` the debtor is absent
from the player map and no other player record changes (no payout is
credited to anyone, and the debtor's remaining cash is discarded); every
board property formerly owned by the debtor has owner=null and
mortgaged=false, its buildings are zeroed when it is a street with
buildings (non-street buildings are untouched), and its occurrence count
in the auction queue increases by exactly one (so it appears exactly once
whenever it was not already queued). -/
theorem c7_bank_bankruptcy_cleanup (s : GameState) (debtor : String) (pd : Player)
    (hdeb : recGet s.players debtor = some pd) :
    recGet (declareBankruptcyToBank s debtor).players debtor = none
  ∧ (∀ k, k ≠ debtor →
      recGet (declareBankruptcyToBank s debtor).players k = recGet s.players k)
  ∧ ∀ d ∈ PROPERTY_DEFS, ∀ ps, recGet s.props d.id = some ps →
      ps.owner = some debtor →
      recGet (declareBankruptcyToBank s debtor).props d.id =
        some { id := ps.id, owner := none, mortgaged := false,
               buildings := if d.kind = .street ∧ 0 < ps.buildings then 0 else ps.buildings }
    ∧ (declareBankruptcyToBank s debtor).auctionQueue.count d.id =
        s.auctionQueue.count d.id + 1 := by
  have hnd := property_defs_nodup
  have hplayers : (declareBankruptcyToBank s debtor).players =
      recErase (PROPERTY_DEFS.foldl (bankruptcyBankStep2 debtor) ({ s with props := PROPERTY_DEFS.foldl (bankruptcyBankStep1 debtor) s.props }, s.auctionQueue)).1.players debtor := by
    unfold declareBankruptcyToBank
    rw [hdeb]
    dsimp only [addTx]
  have hprops : (declareBankruptcyToBank s debtor).props =
      (PROPERTY_DEFS.foldl (bankruptcyBankStep2 debtor) ({ s with props := PROPERTY_DEFS.foldl (bankruptcyBankStep1 debtor) s.props }, s.auctionQueue)).1.props := by
    unfold declareBankruptcyToBank
    rw [hdeb]
    dsimp only [addTx]
  have hqueue : (declareBankruptcyToBank s debtor).auctionQueue =
      (PROPERTY_DEFS.foldl (bankruptcyBankStep2 debtor) ({ s with props := PROPERTY_DEFS.foldl (bankruptcyBankStep1 debtor) s.props }, s.auctionQueue)).2 := by
    unfold declareBankruptcyToBank
    rw [hdeb]
    dsimp only [addTx]
  refine ⟨?_, ?_, ?_⟩
  · rw [hplayers, foldl_bankStep2_players]
    exact recGet_recErase_self _ _
  · intro k hk
    rw [hplayers, recGet_recErase_ne _ _ _ hk, foldl_bankStep2_players]
  · intro d hd ps hps how
    have h1 := foldl_bankStep1_mem debtor PROPERTY_DEFS d s.props ps hnd hd hps
    by_cases hP : d.kind = .street ∧ 0 < ps.buildings
    · rw [if_pos ⟨how, hP.1, hP.2⟩] at h1
      have h1x : recGet ((({ s with props := PROPERTY_DEFS.foldl (bankruptcyBankStep1 debtor) s.props }, s.auctionQueue) : GameState × List String).1.props) d.id = some { ps with buildings := 0 } := by
        dsimp only
        exact h1
      have hox : ({ ps with buildings := 0 } : PropertyState).owner = some debtor := how
      have h2 := foldl_bankStep2_mem debtor PROPERTY_DEFS d
        ({ s with props := PROPERTY_DEFS.foldl (bankruptcyBankStep1 debtor) s.props }, s.auctionQueue)
        { ps with buildings := 0 } hnd hd h1x hox
      refine ⟨?_, ?_⟩
      · rw [hprops, h2.1, if_pos hP]
      · rw [hqueue, h2.2]
    · rw [if_neg (fun hcc => hP ⟨hcc.2.1, hcc.2.2⟩)] at h1
      have h1x : recGet ((({ s with props := PROPERTY_DEFS.foldl (bankruptcyBankStep1 debtor) s.props }, s.auctionQueue) : GameState × List String).1.props) d.id = some ps := by
        dsimp only
        exact h1
      have h2 := foldl_bankStep2_mem debtor PROPERTY_DEFS d
        ({ s with props := PROPERTY_DEFS.foldl (bankruptcyBankStep1 debtor) s.props }, s.auctionQueue)
        ps hnd hd h1x how
      refine ⟨?_, ?_⟩
      · rw [hprops, h2.1, if_neg hP]
      · rw [hqueue, h2.2]

set_option maxRecDepth 10000 in
/-- C7 counterexample: debtor dora owns the rail `T1` carrying one
(malformed) building while `T1` is already queued for auction.  After
`declareBankruptcyToBank` the rail's buildings are NOT zeroed (the zeroing
loop only touches streets) and `T1` now appears twice in the auction
queue, refuting "buildings=0 ... appears exactly once". -/
theorem c7_rail_and_duplicate_queue_counterexample :
    (recGet stateRail.props "T1").map PropertyState.owner = some (some "dora")
  ∧ buildingsAt (declareBankruptcyToBank stateRail "dora") "T1" = 1
  ∧ (declareBankruptcyToBank stateRail "dora").auctionQueue = ["T1", "T1"] := by
  exact ⟨rfl, by decide, by decide⟩

/-- Witness for the amended C7 on a debtor owning the street `P06` with
two houses. -/
theorem c7_bank_bankruptcy_cleanup_witness :
    recGet (declareBankruptcyToBank stateBankBk "dora").players "dora" = none
  ∧ (∀ k, k ≠ "dora" →
      recGet (declareBankruptcyToBank stateBankBk "dora").players k =
        recGet stateBankBk.players k)
  ∧ ∀ d ∈ PROPERTY_DEFS, ∀ ps, recGet stateBankBk.props d.id = some ps →
      ps.owner = some "dora" →
      recGet (declareBankruptcyToBank stateBankBk "dora").props d.id =
        some { id := ps.id, owner := none, mortgaged := false,
               buildings := if d.kind = .street ∧ 0 < ps.buildings then 0 else ps.buildings }
    ∧ (declareBankruptcyToBank stateBankBk "dora").auctionQueue.count d.id =
        stateBankBk.auctionQueue.count d.id + 1 := by
  exact c7_bank_bankruptcy_cleanup stateBankBk "dora" (samplePlayer "dora" 500) rfl

end PropertyBank
